import Mathlib

/-!
Verification development for the Complexity Analyzer repository.

Shallow embedding of the server-side core:
  * `CodeAnalyzer` (analyzeComplexity / detectComplexity / detectTimeComplexity /
    detectSpaceComplexity / generateWarnings / generateRecommendations /
    getLearningResources / generateChartData),
  * `SandboxExecutor` (executeCode with its success-only cache,
    executeCodeParallel with groups of 4 and early exit, getLanguageConfig),
  * the algorithm catalog (`ALGORITHM_CATALOG`, `detectAlgorithm`).

Conventions of the embedding:
  * JavaScript numbers are modelled as rationals (`ℚ`); where the source can
    produce `NaN`/`Infinity` (the ratio arithmetic of `detectTimeComplexity`
    and `detectSpaceComplexity`) we compute in `JsNum`, a rational extended
    with `nan`/`posInf`/`negInf` following IEEE/JS semantics for the operators
    the source uses.  `inputSize` is an integer (the data model declares it a
    positive integer and every call site passes integers).
  * JavaScript strings are Lean `String`s; `String.toLowerCase`,
    `replace(/[_\s]/g, '')` and `includes` are embedded over `List Char`
    (ASCII lowercasing, the full JS `\s` class).
  * Exceptions are explicit: a thrown JS value is `Option String`
    (`some msg` for an `Error` carrying `msg`, `none` for a non-`Error`
    throw, which the analyzer maps to a fallback message).
  * Effectful collaborators (subprocess spawning, the analysis-record store)
    are oracle parameters / explicit state, so every definition stays
    executable.
-/

/-- `ExecutionResultType` of shared/schema.ts: one measurement of a run at a
given input size.  `status` ranges over "success" | "timeout" | "error". -/
structure ExecutionResult where
  inputSize : Int
  runtime : ℚ
  memoryUsage : ℚ
  status : String
  error : Option String := none
deriving DecidableEq, Repr

/-- `AnalysisWarningType` of shared/schema.ts. -/
structure AnalysisWarning where
  type : String
  message : String
  severity : String
deriving DecidableEq, Repr

/-- `RecommendationType` of shared/schema.ts. -/
structure Recommendation where
  type : String
  title : String
  description : String
  links : Option (List String) := none
deriving DecidableEq, Repr

/-- `LearningResourceType` of shared/schema.ts. -/
structure LearningResource where
  title : String
  url : String
  source : String
  description : String
deriving DecidableEq, Repr

/-- `ComplexityAnalysisType` of shared/schema.ts. -/
structure ComplexityAnalysis where
  timeComplexityBest : String
  timeComplexityAverage : String
  timeComplexityWorst : String
  spaceComplexity : String
  confidence : ℚ
  algorithmName : Option String := none
  algorithmCategory : Option String := none
  algorithmType : Option String := none
  testResults : List ExecutionResult
deriving DecidableEq, Repr

/-- A learning resource attached to a catalog entry (no description field;
`getLearningResources` fills the description from the entry). -/
structure CatalogResource where
  title : String
  url : String
  source : String
deriving DecidableEq, Repr

/-- `AlgorithmCatalogEntry` of server/services/algorithmCatalog.ts. -/
structure AlgorithmCatalogEntry where
  name : String
  category : String
  timeComplexityBest : String
  timeComplexityAverage : String
  timeComplexityWorst : String
  spaceComplexity : String
  description : String
  learningResources : List CatalogResource
  keywords : List String
deriving DecidableEq, Repr

/-- `ExecutionConfig` of sandboxExecutor: input to a single execution. -/
structure ExecutionConfig where
  code : String
  language : String
  inputSize : Int
  timeout : Int
deriving DecidableEq, Repr

/-! ### JS string normalization (`detectAlgorithm`) -/

/-- The JS regex class `\\s` (whitespace matched by `replace(/[_\\s]/g, '')`),
by Unicode code point. -/
def jsIsSpace (c : Char) : Bool :=
  let n := c.toNat
  n = 0x20 || n = 0x9 || n = 0xa || n = 0xd || n = 0xb || n = 0xc ||
  n = 0xa0 || n = 0x1680 || (0x2000 <= n && n <= 0x200a) ||
  n = 0x2028 || n = 0x2029 || n = 0x202f || n = 0x205f ||
  n = 0x3000 || n = 0xfeff

/-- `code.toLowerCase().replace(/[_\s]/g, '')` over the character list
(ASCII lowercasing; all source keywords and witnesses are ASCII). -/
def normalizeChars (cs : List Char) : List Char :=
  (cs.map Char.toLower).filter (fun c => !(c = '_' || jsIsSpace c))

/-- Normalized character list of a string. -/
def normalizeStr (s : String) : List Char :=
  normalizeChars s.data

/-- Does `hay` start with `needle`? -/
def startsWithChars : List Char → List Char → Bool
  | _, [] => true
  | [], _ :: _ => false
  | a :: as, b :: bs => a = b && startsWithChars as bs

/-- JS `String.prototype.includes`: `needle` occurs contiguously in `hay`. -/
def hasSub : List Char → List Char → Bool
  | [], needle => needle.isEmpty
  | c :: rest, needle => startsWithChars (c :: rest) needle || hasSub rest needle
/-! ### The algorithm catalog (server/services/algorithmCatalog.ts) -/

/-- `ALGORITHM_CATALOG`: the static, ordered list of known algorithms. -/
def ALGORITHM_CATALOG : List AlgorithmCatalogEntry := [
  { name := "Bubble Sort", category := "sorting",
    timeComplexityBest := "O(n)", timeComplexityAverage := "O(n²)",
    timeComplexityWorst := "O(n²)", spaceComplexity := "O(1)",
    description := "Simple comparison-based sorting algorithm",
    learningResources := [⟨"Bubble Sort Algorithm", "https://www.geeksforgeeks.org/bubble-sort/", "geeksforgeeks"⟩,
      ⟨"Bubble Sort Explained", "https://www.freecodecamp.org/news/bubble-sort/", "freecodecamp"⟩],
    keywords := ["bubble", "bubbleSort", "bubble_sort"] },
  { name := "Quick Sort", category := "sorting",
    timeComplexityBest := "O(n log n)", timeComplexityAverage := "O(n log n)",
    timeComplexityWorst := "O(n²)", spaceComplexity := "O(log n)",
    description := "Efficient divide-and-conquer sorting algorithm",
    learningResources := [⟨"Quick Sort Algorithm", "https://www.geeksforgeeks.org/quick-sort/", "geeksforgeeks"⟩,
      ⟨"Quick Sort Explained", "https://www.freecodecamp.org/news/quick-sort-algorithm/", "freecodecamp"⟩],
    keywords := ["quick", "quickSort", "quick_sort"] },
  { name := "Merge Sort", category := "sorting",
    timeComplexityBest := "O(n log n)", timeComplexityAverage := "O(n log n)",
    timeComplexityWorst := "O(n log n)", spaceComplexity := "O(n)",
    description := "Stable divide-and-conquer sorting algorithm",
    learningResources := [⟨"Merge Sort Algorithm", "https://www.geeksforgeeks.org/merge-sort/", "geeksforgeeks"⟩,
      ⟨"Merge Sort Explained", "https://www.freecodecamp.org/news/merge-sort-algorithm/", "freecodecamp"⟩],
    keywords := ["merge", "mergeSort", "merge_sort"] },
  { name := "Heap Sort", category := "sorting",
    timeComplexityBest := "O(n log n)", timeComplexityAverage := "O(n log n)",
    timeComplexityWorst := "O(n log n)", spaceComplexity := "O(1)",
    description := "Comparison-based sorting using heap data structure",
    learningResources := [⟨"Heap Sort Algorithm", "https://www.geeksforgeeks.org/heap-sort/", "geeksforgeeks"⟩],
    keywords := ["heap", "heapSort", "heap_sort"] },
  { name := "Insertion Sort", category := "sorting",
    timeComplexityBest := "O(n)", timeComplexityAverage := "O(n²)",
    timeComplexityWorst := "O(n²)", spaceComplexity := "O(1)",
    description := "Simple sorting algorithm building final array one item at a time",
    learningResources := [⟨"Insertion Sort Algorithm", "https://www.geeksforgeeks.org/insertion-sort/", "geeksforgeeks"⟩],
    keywords := ["insertion", "insertionSort", "insertion_sort"] },
  { name := "Selection Sort", category := "sorting",
    timeComplexityBest := "O(n²)", timeComplexityAverage := "O(n²)",
    timeComplexityWorst := "O(n²)", spaceComplexity := "O(1)",
    description := "In-place comparison sorting algorithm",
    learningResources := [⟨"Selection Sort Algorithm", "https://www.geeksforgeeks.org/selection-sort/", "geeksforgeeks"⟩],
    keywords := ["selection", "selectionSort", "selection_sort"] },
  { name := "Binary Search", category := "searching",
    timeComplexityBest := "O(1)", timeComplexityAverage := "O(log n)",
    timeComplexityWorst := "O(log n)", spaceComplexity := "O(1)",
    description := "Efficient search algorithm for sorted arrays",
    learningResources := [⟨"Binary Search Algorithm", "https://www.geeksforgeeks.org/binary-search/", "geeksforgeeks"⟩,
      ⟨"Binary Search Explained", "https://www.freecodecamp.org/news/binary-search-algorithm/", "freecodecamp"⟩],
    keywords := ["binary", "binarySearch", "binary_search"] },
  { name := "Linear Search", category := "searching",
    timeComplexityBest := "O(1)", timeComplexityAverage := "O(n)",
    timeComplexityWorst := "O(n)", spaceComplexity := "O(1)",
    description := "Simple search algorithm checking each element sequentially",
    learningResources := [⟨"Linear Search Algorithm", "https://www.geeksforgeeks.org/linear-search/", "geeksforgeeks"⟩],
    keywords := ["linear", "linearSearch", "linear_search", "sequential"] },
  { name := "Breadth-First Search (BFS)", category := "graph",
    timeComplexityBest := "O(V + E)", timeComplexityAverage := "O(V + E)",
    timeComplexityWorst := "O(V + E)", spaceComplexity := "O(V)",
    description := "Graph traversal algorithm exploring vertices level by level",
    learningResources := [⟨"Breadth First Search Algorithm", "https://www.geeksforgeeks.org/breadth-first-search-or-bfs-for-a-graph/", "geeksforgeeks"⟩,
      ⟨"BFS Algorithm Explained", "https://www.freecodecamp.org/news/breadth-first-search-algorithm/", "freecodecamp"⟩],
    keywords := ["bfs", "breadth", "breadthFirst", "breadth_first"] },
  { name := "Depth-First Search (DFS)", category := "graph",
    timeComplexityBest := "O(V + E)", timeComplexityAverage := "O(V + E)",
    timeComplexityWorst := "O(V + E)", spaceComplexity := "O(V)",
    description := "Graph traversal algorithm exploring as far as possible before backtracking",
    learningResources := [⟨"Depth First Search Algorithm", "https://www.geeksforgeeks.org/depth-first-search-or-dfs-for-a-graph/", "geeksforgeeks"⟩,
      ⟨"DFS Algorithm Explained", "https://www.freecodecamp.org/news/depth-first-search-algorithm/", "freecodecamp"⟩],
    keywords := ["dfs", "depth", "depthFirst", "depth_first"] },
  { name := "Dijkstra\x27s Algorithm", category := "graph",
    timeComplexityBest := "O((V + E) log V)", timeComplexityAverage := "O((V + E) log V)",
    timeComplexityWorst := "O((V + E) log V)", spaceComplexity := "O(V)",
    description := "Shortest path algorithm for weighted graphs",
    learningResources := [⟨"Dijkstra\x27s Algorithm", "https://www.geeksforgeeks.org/dijkstras-shortest-path-algorithm-greedy-algo-7/", "geeksforgeeks"⟩],
    keywords := ["dijkstra", "dijkstras", "shortest", "path"] },
  { name := "Bellman-Ford Algorithm", category := "graph",
    timeComplexityBest := "O(VE)", timeComplexityAverage := "O(VE)",
    timeComplexityWorst := "O(VE)", spaceComplexity := "O(V)",
    description := "Shortest path algorithm that handles negative weights",
    learningResources := [⟨"Bellman-Ford Algorithm", "https://www.geeksforgeeks.org/bellman-ford-algorithm-dp-23/", "geeksforgeeks"⟩],
    keywords := ["bellman", "ford", "bellmanFord", "bellman_ford"] },
  { name := "Fibonacci (Recursive)", category := "dynamic_programming",
    timeComplexityBest := "O(2^n)", timeComplexityAverage := "O(2^n)",
    timeComplexityWorst := "O(2^n)", spaceComplexity := "O(n)",
    description := "Recursive implementation of Fibonacci sequence",
    learningResources := [⟨"Fibonacci Series", "https://www.geeksforgeeks.org/program-for-nth-fibonacci-number/", "geeksforgeeks"⟩,
      ⟨"Fibonacci Algorithm", "https://www.freecodecamp.org/news/fibonacci-sequence/", "freecodecamp"⟩],
    keywords := ["fibonacci", "fib", "recursive"] },
  { name := "Fibonacci (Dynamic Programming)", category := "dynamic_programming",
    timeComplexityBest := "O(n)", timeComplexityAverage := "O(n)",
    timeComplexityWorst := "O(n)", spaceComplexity := "O(n)",
    description := "Dynamic programming solution for Fibonacci sequence",
    learningResources := [⟨"Fibonacci Series using DP", "https://www.geeksforgeeks.org/fibonacci-series-using-dynamic-programming/", "geeksforgeeks"⟩],
    keywords := ["fibonacci", "fib", "dp", "dynamic", "memoization"] },
  { name := "Knapsack Problem (0/1)", category := "dynamic_programming",
    timeComplexityBest := "O(nW)", timeComplexityAverage := "O(nW)",
    timeComplexityWorst := "O(nW)", spaceComplexity := "O(nW)",
    description := "Classic dynamic programming optimization problem",
    learningResources := [⟨"0-1 Knapsack Problem", "https://www.geeksforgeeks.org/0-1-knapsack-problem-dp-10/", "geeksforgeeks"⟩],
    keywords := ["knapsack", "dp", "dynamic", "optimization"] },
  { name := "Longest Common Subsequence", category := "dynamic_programming",
    timeComplexityBest := "O(mn)", timeComplexityAverage := "O(mn)",
    timeComplexityWorst := "O(mn)", spaceComplexity := "O(mn)",
    description := "Finding longest subsequence common to two sequences",
    learningResources := [⟨"Longest Common Subsequence", "https://www.geeksforgeeks.org/longest-common-subsequence-dp-4/", "geeksforgeeks"⟩],
    keywords := ["lcs", "longest", "common", "subsequence"] },
  { name := "KMP Algorithm", category := "string_matching",
    timeComplexityBest := "O(n + m)", timeComplexityAverage := "O(n + m)",
    timeComplexityWorst := "O(n + m)", spaceComplexity := "O(m)",
    description := "Efficient string matching algorithm using failure function",
    learningResources := [⟨"KMP Algorithm", "https://www.geeksforgeeks.org/kmp-algorithm-for-pattern-searching/", "geeksforgeeks"⟩],
    keywords := ["kmp", "knuth", "morris", "pratt", "pattern"] },
  { name := "Rabin-Karp Algorithm", category := "string_matching",
    timeComplexityBest := "O(n + m)", timeComplexityAverage := "O(n + m)",
    timeComplexityWorst := "O(nm)", spaceComplexity := "O(1)",
    description := "String matching using rolling hash",
    learningResources := [⟨"Rabin-Karp Algorithm", "https://www.geeksforgeeks.org/rabin-karp-algorithm-for-pattern-searching/", "geeksforgeeks"⟩],
    keywords := ["rabin", "karp", "rolling", "hash", "pattern"] },
  { name := "Activity Selection Problem", category := "greedy",
    timeComplexityBest := "O(n log n)", timeComplexityAverage := "O(n log n)",
    timeComplexityWorst := "O(n log n)", spaceComplexity := "O(1)",
    description := "Classic greedy algorithm for scheduling activities",
    learningResources := [⟨"Activity Selection Problem", "https://www.geeksforgeeks.org/activity-selection-problem-greedy-algo-1/", "geeksforgeeks"⟩],
    keywords := ["activity", "selection", "greedy", "scheduling"] },
  { name := "Huffman Coding", category := "greedy",
    timeComplexityBest := "O(n log n)", timeComplexityAverage := "O(n log n)",
    timeComplexityWorst := "O(n log n)", spaceComplexity := "O(n)",
    description := "Optimal prefix-free binary codes using greedy approach",
    learningResources := [⟨"Huffman Coding Algorithm", "https://www.geeksforgeeks.org/huffman-coding-greedy-algo-3/", "geeksforgeeks"⟩],
    keywords := ["huffman", "coding", "compression", "greedy"] },
  { name := "Traveling Salesman Problem (Brute Force)", category := "np_hard",
    timeComplexityBest := "O(n!)", timeComplexityAverage := "O(n!)",
    timeComplexityWorst := "O(n!)", spaceComplexity := "O(n)",
    description := "Brute force solution to TSP",
    learningResources := [⟨"Traveling Salesman Problem", "https://www.geeksforgeeks.org/traveling-salesman-problem-tsp-implementation/", "geeksforgeeks"⟩],
    keywords := ["tsp", "traveling", "salesman", "brute", "force"] },
  { name := "Traveling Salesman Problem (DP)", category := "np_hard",
    timeComplexityBest := "O(n² × 2^n)", timeComplexityAverage := "O(n² × 2^n)",
    timeComplexityWorst := "O(n² × 2^n)", spaceComplexity := "O(n × 2^n)",
    description := "Dynamic programming solution to TSP using bitmask",
    learningResources := [⟨"TSP using Dynamic Programming", "https://www.geeksforgeeks.org/travelling-salesman-problem-set-1/", "geeksforgeeks"⟩],
    keywords := ["tsp", "traveling", "salesman", "dp", "dynamic", "bitmask"] }]

/-! ### Catalog matching (`detectAlgorithm`) -/

/-- One keyword of an entry matches the normalized code. -/
def keywordMatches (codeNorm : List Char) (kw : String) : Bool :=
  hasSub codeNorm (normalizeStr kw)

/-- The nested loop of `detectAlgorithm`: first entry (declaration order)
one of whose keywords, normalized, is contained in the normalized code. -/
def findAlg (codeNorm : List Char) : List AlgorithmCatalogEntry → Option AlgorithmCatalogEntry
  | [] => none
  | a :: rest =>
    if a.keywords.any (keywordMatches codeNorm) then some a else findAlg codeNorm rest

/-- `detectAlgorithm(code)`: normalize the code and scan the catalog. -/
def detectAlgorithm (code : String) : Option AlgorithmCatalogEntry :=
  findAlg (normalizeStr code) ALGORITHM_CATALOG

/-! ### JS number semantics for the ratio arithmetic

`detectTimeComplexity` divides by a possibly-zero mean count (`0/0 = NaN` in
JS) and `detectSpaceComplexity` divides by `inputSize`; `JsNum` extends `ℚ`
with the three IEEE non-finite values and implements exactly the operators
those two functions use (`+`, `/`, `<`). -/

inductive JsNum where
  | num (q : ℚ)
  | nan
  | posInf
  | negInf
deriving DecidableEq, Repr

/-- IEEE/JS addition on the embedded values (finite `ℚ` addition is exact;
rounding is immaterial to every property proved below). -/
def JsNum.add : JsNum → JsNum → JsNum
  | num a, num b => num (a + b)
  | nan, _ => nan
  | _, nan => nan
  | posInf, negInf => nan
  | negInf, posInf => nan
  | posInf, _ => posInf
  | _, posInf => posInf
  | negInf, _ => negInf
  | _, negInf => negInf

/-- IEEE/JS division (`0/0 = NaN`, `x/0 = ±Infinity` for `x ≠ 0`; the
embedding's zero is `+0`). -/
def JsNum.div : JsNum → JsNum → JsNum
  | num a, num b =>
    if b = 0 then (if a = 0 then nan else if a > 0 then posInf else negInf)
    else num (a / b)
  | nan, _ => nan
  | _, nan => nan
  | posInf, posInf => nan
  | posInf, negInf => nan
  | negInf, posInf => nan
  | negInf, negInf => nan
  | posInf, num b => if b ≥ 0 then posInf else negInf
  | negInf, num b => if b ≥ 0 then negInf else posInf
  | num _, posInf => num 0
  | num _, negInf => num 0

/-- IEEE/JS `<` (every comparison with `NaN` is false). -/
def JsNum.lt : JsNum → JsNum → Bool
  | num a, num b => a < b
  | nan, _ => false
  | _, nan => false
  | posInf, _ => false
  | negInf, negInf => false
  | negInf, _ => true
  | num _, posInf => true
  | num _, negInf => false

/-! ### Empirical classification (`CodeAnalyzer`) -/

/-- The per-pair growth ratios of `detectTimeComplexity`: for each adjacent
pair with `prev.runtime > 0`, push `timeRatio / sizeRatio` where
`sizeRatio = curr.inputSize / prev.inputSize` and
`timeRatio = curr.runtime / prev.runtime`. -/
def adjacentRatios : List ExecutionResult → List JsNum
  | [] => []
  | [_] => []
  | p :: c :: rest =>
    (if p.runtime > 0 then
      [JsNum.div (JsNum.div (JsNum.num c.runtime) (JsNum.num p.runtime))
        (JsNum.div (JsNum.num (c.inputSize : ℚ)) (JsNum.num (p.inputSize : ℚ)))]
     else []) ++ adjacentRatios (c :: rest)

/-- `detectTimeComplexity(results)`: average the growth ratios (the JS
`reduce(...)/length` is `NaN` when no pair qualifies) and classify against
the fixed thresholds. -/
def detectTimeComplexity (results : List ExecutionResult) : String :=
  if results.length < 2 then "Unable to determine" else
  let ratios := adjacentRatios results
  let avgRatio := JsNum.div (ratios.foldl JsNum.add (JsNum.num 0)) (JsNum.num (ratios.length : ℚ))
  if JsNum.lt avgRatio (JsNum.num 1.5) then "O(1)" else
  if JsNum.lt avgRatio (JsNum.num 3) then "O(log n)" else
  if JsNum.lt avgRatio (JsNum.num 5) then "O(n)" else
  if JsNum.lt avgRatio (JsNum.num 10) then "O(n log n)" else
  if JsNum.lt avgRatio (JsNum.num 20) then "O(n²)" else
  "O(n³) or higher"

/-- `detectSpaceComplexity(results)`: average `memoryUsage / inputSize` and
classify. -/
def detectSpaceComplexity (results : List ExecutionResult) : String :=
  let memoryGrowth := results.map
    (fun r => JsNum.div (JsNum.num r.memoryUsage) (JsNum.num (r.inputSize : ℚ)))
  let avgGrowth := JsNum.div (memoryGrowth.foldl JsNum.add (JsNum.num 0))
    (JsNum.num (memoryGrowth.length : ℚ))
  if JsNum.lt avgGrowth (JsNum.num 0.1) then "O(1)" else
  if JsNum.lt avgGrowth (JsNum.num 1) then "O(log n)" else
  "O(n)"

/-- `detectComplexity(results, code)`: catalog match first (confidence 0.9),
then the insufficient-data branch (confidence 0), then empirical inference
(confidence 0.6). -/
def detectComplexity (results : List ExecutionResult) (code : String) : ComplexityAnalysis :=
  let successfulResults := results.filter (fun r => r.status == "success")
  match detectAlgorithm code with
  | some detectedAlgorithm =>
    { timeComplexityBest := detectedAlgorithm.timeComplexityBest
      timeComplexityAverage := detectedAlgorithm.timeComplexityAverage
      timeComplexityWorst := detectedAlgorithm.timeComplexityWorst
      spaceComplexity := detectedAlgorithm.spaceComplexity
      confidence := 0.9
      algorithmName := some detectedAlgorithm.name
      algorithmCategory := some detectedAlgorithm.category
      algorithmType := some detectedAlgorithm.name
      testResults := results }
  | none =>
    if successfulResults.length < 2 then
      { timeComplexityBest := "Unable to determine"
        timeComplexityAverage := "Unable to determine"
        timeComplexityWorst := "Unable to determine"
        spaceComplexity := "Unable to determine"
        confidence := 0
        testResults := results }
    else
      let empiricalComplexity := detectTimeComplexity successfulResults
      let spaceComplexity := detectSpaceComplexity successfulResults
      { timeComplexityBest := empiricalComplexity
        timeComplexityAverage := empiricalComplexity
        timeComplexityWorst := empiricalComplexity
        spaceComplexity := spaceComplexity
        confidence := 0.6
        algorithmType := some ("Unknown Algorithm")
        testResults := results }

/-! ### Warnings, recommendations, resources, chart data -/

/-- `generateWarnings(results, analysis)`: at most one warning of each of
the four kinds, in source push order. -/
def generateWarnings (results : List ExecutionResult) (analysis : ComplexityAnalysis) :
    List AnalysisWarning :=
  let timeouts := results.filter (fun r => r.status == "timeout")
  let errors := results.filter (fun r => r.status == "error")
  (if timeouts.length > 0 then
    [{ type := "timeout"
       message := "Execution timed out for input sizes: " ++
         String.intercalate (", ") (timeouts.map (fun r => toString r.inputSize))
       severity := "high" }]
   else []) ++
  (if errors.length > 0 then
    [{ type := "error"
       message := "Execution failed for input sizes: " ++
         String.intercalate (", ") (errors.map (fun r => toString r.inputSize))
       severity := "high" }]
   else []) ++
  (if analysis.timeComplexityWorst = "O(n²)" ∨ analysis.timeComplexityWorst = "O(n³) or higher" ∨
      hasSub analysis.timeComplexityWorst.data ['!'] then
    [{ type := "performance"
       message := "Algorithm has poor time complexity and may not scale well with large inputs"
       severity := "medium" }]
   else []) ++
  (if results.any (fun r => r.memoryUsage > 500) then
    [{ type := "memory"
       message := "High memory usage detected - consider optimizing space complexity"
       severity := "medium" }]
   else [])

/-- `generateRecommendations(analysis, language)`. -/
def generateRecommendations (analysis : ComplexityAnalysis) (language : String) :
    List Recommendation :=
  (if analysis.timeComplexityWorst = "O(n²)" ∧ analysis.algorithmCategory = some ("sorting") then
    [{ type := "optimization"
       title := "Consider using more efficient sorting algorithms"
       description := "Replace with Merge Sort or Quick Sort for O(n log n) time complexity"
       links := some ["https://www.geeksforgeeks.org/merge-sort/",
         "https://www.geeksforgeeks.org/quick-sort/"] }]
   else []) ++
  (if language = "python" then
    [{ type := "optimization"
       title := "Use built-in functions when possible"
       description := "Python\x27s built-in sorted() function is highly optimized" }]
   else []) ++
  [{ type := "learning"
     title := "Learn about algorithm complexity"
     description := "Understanding Big O notation will help you write more efficient code"
     links := some ["https://www.freecodecamp.org/news/big-o-notation/",
       "https://www.geeksforgeeks.org/analysis-of-algorithms-set-1-asymptotic-analysis/"] }]

/-- `getLearningResources(algorithmCategory, algorithmName)`: two base
resources, then catalog-entry resources for the named algorithm, then
category extras. -/
def getLearningResources (algorithmCategory algorithmName : Option String) :
    List LearningResource :=
  let base : List LearningResource :=
    [{ title := "Big O Notation Explained"
       url := "https://www.freecodecamp.org/news/big-o-notation/"
       source := "freecodecamp"
       description := "Complete guide to understanding algorithm complexity" },
     { title := "Analysis of Algorithms"
       url := "https://www.geeksforgeeks.org/analysis-of-algorithms-set-1-asymptotic-analysis/"
       source := "geeksforgeeks"
       description := "Asymptotic analysis and complexity theory" }]
  let withAlgo := base ++
    (match algorithmName with
     | none => []
     | some n =>
       match ALGORITHM_CATALOG.find? (fun algo => algo.name == n) with
       | none => []
       | some catalogEntry =>
         catalogEntry.learningResources.map (fun resource =>
           { title := resource.title
             url := resource.url
             source := resource.source
             description := catalogEntry.description }))
  withAlgo ++
  (if algorithmCategory = some ("sorting") then
    [{ title := "Sorting Algorithms"
       url := "https://www.geeksforgeeks.org/sorting-algorithms/"
       source := "geeksforgeeks"
       description := "Comprehensive guide to sorting algorithms" }]
   else []) ++
  (if algorithmCategory = some ("searching") then
    [{ title := "Searching Algorithms"
       url := "https://www.geeksforgeeks.org/searching-algorithms/"
       source := "geeksforgeeks"
       description := "Different searching techniques and their complexities" }]
   else []) ++
  (if algorithmCategory = some ("graph") then
    [{ title := "Graph Algorithms"
       url := "https://www.geeksforgeeks.org/graph-algorithms/"
       source := "geeksforgeeks"
       description := "Graph traversal and shortest path algorithms" }]
   else []) ++
  (if algorithmCategory = some ("dynamic_programming") then
    [{ title := "Dynamic Programming"
       url := "https://www.geeksforgeeks.org/dynamic-programming/"
       source := "geeksforgeeks"
       description := "Dynamic programming concepts and problems" }]
   else [])

/-- One chart dataset (shared/schema.ts `ChartDataset`). -/
structure ChartDataset where
  label : String
  data : List ℚ
  borderColor : String
  backgroundColor : String
deriving DecidableEq, Repr

/-- One chart (shared/schema.ts `ChartData`). -/
structure ChartData where
  labels : List String
  datasets : List ChartDataset
deriving DecidableEq, Repr

/-- The object returned by `generateChartData` (runtime and memory series). -/
structure AnalysisChartData where
  runtime : ChartData
  memory : ChartData
deriving DecidableEq, Repr

/-- `generateChartData(results)`: series over the successful results only. -/
def generateChartData (results : List ExecutionResult) : AnalysisChartData :=
  let successfulResults := results.filter (fun r => r.status == "success")
  { runtime :=
      { labels := successfulResults.map (fun r => toString r.inputSize)
        datasets := [{ label := "Actual Runtime"
                       data := successfulResults.map (fun r => r.runtime)
                       borderColor := "hsl(221 83% 53%)"
                       backgroundColor := "hsla(221 83% 53% / 0.1)" }] }
    memory :=
      { labels := successfulResults.map (fun r => toString r.inputSize)
        datasets := [{ label := "Memory Usage"
                       data := successfulResults.map (fun r => r.memoryUsage)
                       borderColor := "hsl(142 76% 36%)"
                       backgroundColor := "hsla(142 76% 36% / 0.1)" }] }}

/-! ### Sandbox executor model

The subprocess itself cannot run inside the embedding, so a single execution
is parameterized by an `ExecOracle` describing how the outside world behaved:
whether scratch-directory setup threw, how the spawned child finished, the
sampled memory peak, and the measured wall-clock seconds.  Everything the
source decides (cache policy, language dispatch, status mapping, error
messages) is embedded from the code. -/

/-- The filename/command pair of `getLanguageConfig` (the unused `tempDir`
parameter of the source is dropped). -/
structure LangConfig where
  filename : String
  command : List String
deriving DecidableEq, Repr

/-- `getLanguageConfig(language)`: the four supported toolchains; any other
language throws `Unsupported language: ...`. -/
def getLanguageConfig (language : String) : Except String LangConfig :=
  if language = "python" then
    Except.ok { filename := "main.py", command := ["python3", "main.py"] }
  else if language = "javascript" then
    Except.ok { filename := "main.js", command := ["node", "main.js"] }
  else if language = "java" then
    Except.ok { filename := "Main.java", command := ["sh", "-c", "javac Main.java && java Main"] }
  else if language = "cpp" then
    Except.ok { filename := "main.cpp", command := ["sh", "-c", "g++ -O2 main.cpp -o main && ./main"] }
  else
    Except.error ("Unsupported language: " ++ language)

/-- How the spawned child finished: the `close` event with an exit code (and
the accumulated stderr text), the `error` event, or the timeout firing
first. -/
inductive SpawnEvent where
  | closed (exitCode : Int) (stderrText : String)
  | failed (msg : String)
  | timedOut
deriving DecidableEq, Repr

/-- Environment of one `executeCode` call. `mkdtempFault`/`writeFault` are
exceptions thrown by scratch-directory setup / `writeFileSync` (caught by
`executeCode`'s catch); `event` and `memoryPeak` describe the child;
`elapsed` is `(Date.now() - startTime) / 1000`. -/
structure ExecOracle where
  mkdtempFault : Option String := none
  writeFault : Option String := none
  event : SpawnEvent
  memoryPeak : ℚ
  elapsed : ℚ
deriving DecidableEq, Repr

/-- Resolution value of `runInSandbox`'s promise. -/
structure SandboxRes where
  status : String
  memoryUsage : ℚ
  error : Option String := none
deriving DecidableEq, Repr

/-- `runInSandbox(config, tempDir)`: language dispatch, file write, then the
promise resolving from the child's events.  `Except.error` is a synchronous
throw (unsupported language or a file-system fault) that the caller's catch
converts to an error result; `Except.ok` means a child process was spawned. -/
def runInSandboxM (o : ExecOracle) (config : ExecutionConfig) : Except String SandboxRes :=
  match getLanguageConfig config.language with
  | Except.error e => Except.error e
  | Except.ok _ =>
    match o.writeFault with
    | some m => Except.error m
    | none =>
      Except.ok (match o.event with
        | SpawnEvent.closed 0 _ => { status := "success", memoryUsage := o.memoryPeak }
        | SpawnEvent.closed c stderrText =>
          { status := "error", memoryUsage := o.memoryPeak
            error := some (if stderrText = "" then "Process exited with code " ++ toString c
                           else stderrText) }
        | SpawnEvent.failed m =>
          { status := "error", memoryUsage := o.memoryPeak, error := some m }
        | SpawnEvent.timedOut =>
          { status := "timeout", memoryUsage := o.memoryPeak
            error := some ("Execution timed out") })

/-- The process-wide execution cache, as an association list whose `lookup`
is first-match (insertion shadows, like `Map.set`). -/
abbrev ExecCache := List (String × ExecutionResult)

/-- `\x7bconfig.language}-\x7bhash16}-\x7bconfig.inputSize}`; the SHA-256
digest is an opaque parameter (`hash`), identical codes giving identical
keys is all the development relies on. -/
def cacheKey (hash : String → String) (config : ExecutionConfig) : String :=
  config.language ++ "-" ++ hash config.code ++ "-" ++ toString config.inputSize

/-- `executeCode(config)`: cache hit returns a copy without any subprocess;
otherwise run the sandbox, cache the result if (and only if) it succeeded,
and capture any thrown exception into an error result.  Returns the result,
the updated cache, and whether a child process was spawned. -/
def executeCodeM (hash : String → String) (o : ExecOracle) (cache : ExecCache)
    (config : ExecutionConfig) : ExecutionResult × ExecCache × Bool :=
  let key := cacheKey hash config
  match cache.lookup key with
  | some cached => (cached, cache, false)
  | none =>
    match o.mkdtempFault with
    | some m =>
      ({ inputSize := config.inputSize, runtime := o.elapsed, memoryUsage := 0,
         status := "error", error := some m }, cache, false)
    | none =>
      match runInSandboxM o config with
      | Except.error m =>
        ({ inputSize := config.inputSize, runtime := o.elapsed, memoryUsage := 0,
           status := "error", error := some m }, cache, false)
      | Except.ok res =>
        let executionResult : ExecutionResult :=
          { inputSize := config.inputSize, runtime := o.elapsed,
            memoryUsage := res.memoryUsage, status := res.status, error := res.error }
        (executionResult,
         if res.status = "success" then (key, executionResult) :: cache else cache,
         true)

/-- `MAX_PARALLEL_EXECUTIONS`. -/
def MAX_PARALLEL_EXECUTIONS : Nat := 4

/-- `executeCodeParallel(code, language, inputSizes, timeout)`: issue groups
of four, concatenate the group results, and stop after any group containing
a timeout or error.  The per-size execution is abstracted by `exec` (the
source calls `executeCode` for each size of the group concurrently). -/
def executeCodeParallelM (exec : Int → ExecutionResult) (inputSizes : List Int) :
    List ExecutionResult :=
  if inputSizes = [] then [] else
    let batchResults := (inputSizes.take MAX_PARALLEL_EXECUTIONS).map exec
    if batchResults.any (fun result => result.status == "error" || result.status == "timeout") then
      batchResults
    else
      batchResults ++ executeCodeParallelM exec (inputSizes.drop MAX_PARALLEL_EXECUTIONS)
termination_by inputSizes.length
decreasing_by
  simp only [List.length_drop, MAX_PARALLEL_EXECUTIONS]
  have hne : inputSizes ≠ [] := by assumption
  have hpos : 0 < inputSizes.length := List.length_pos.mpr hne
  omega

/-! ### Analyzer run model (`analyzeComplexity`)

The analysis-record store (`storage.getAnalysis` / `storage.updateAnalysis`
for the `analyses` table) is not part of the executor/analyzer sources, so
its contract is modelled from the spec; the run routine itself
(`CodeAnalyzer.analyzeComplexity`) is embedded from the source, with an
explicit fault at each collaborator call to represent a thrown exception. -/

/-- A thrown JS value: `some msg` is an `Error` with that message, `none` a
non-`Error` throw (the catch handler substitutes `Analysis failed`). -/
def Exc := Option String
deriving instance DecidableEq, Repr for Exc

/-- The message the catch handler extracts:
`error instanceof Error ? error.message : "Analysis failed"`. -/
def excMessage (e : Exc) : String :=
  e.getD ("Analysis failed")

/-- The persistent analysis record (shared/schema.ts `analyses` row), with
the fields the run routine reads or writes. -/
structure AnalysisRecord where
  code : String
  language : String
  maxInputSize : Int
  status : String
  timeComplexityBest : Option String := none
  timeComplexityAverage : Option String := none
  timeComplexityWorst : Option String := none
  spaceComplexity : Option String := none
  algorithmName : Option String := none
  algorithmCategory : Option String := none
  algorithmType : Option String := none
  executionResults : Option (List ExecutionResult) := none
  warnings : Option (List AnalysisWarning) := none
  recommendations : Option (List Recommendation) := none
  learningResources : Option (List LearningResource) := none
  chartData : Option AnalysisChartData := none
deriving DecidableEq, Repr

/-- A partial update (the object literal passed to `updateAnalysis`): only
the provided fields are written. -/
structure AnalysisPatch where
  status : Option String := none
  timeComplexityBest : Option String := none
  timeComplexityAverage : Option String := none
  timeComplexityWorst : Option String := none
  spaceComplexity : Option String := none
  algorithmName : Option String := none
  algorithmCategory : Option String := none
  algorithmType : Option String := none
  executionResults : Option (List ExecutionResult) := none
  warnings : Option (List AnalysisWarning) := none
  recommendations : Option (List Recommendation) := none
  learningResources : Option (List LearningResource) := none
  chartData : Option AnalysisChartData := none
deriving DecidableEq, Repr

/-- Modelled from the spec: the store's `update(id, partialFields)` performs
a field-level merge of the provided fields into the record (§6); the
analyses-store implementation itself is not among the sources. -/
def applyPatch (r : AnalysisRecord) (p : AnalysisPatch) : AnalysisRecord :=
  { r with
    status := p.status.getD r.status
    timeComplexityBest := p.timeComplexityBest <|> r.timeComplexityBest
    timeComplexityAverage := p.timeComplexityAverage <|> r.timeComplexityAverage
    timeComplexityWorst := p.timeComplexityWorst <|> r.timeComplexityWorst
    spaceComplexity := p.spaceComplexity <|> r.spaceComplexity
    algorithmName := p.algorithmName <|> r.algorithmName
    algorithmCategory := p.algorithmCategory <|> r.algorithmCategory
    algorithmType := p.algorithmType <|> r.algorithmType
    executionResults := p.executionResults <|> r.executionResults
    warnings := p.warnings <|> r.warnings
    recommendations := p.recommendations <|> r.recommendations
    learningResources := p.learningResources <|> r.learningResources
    chartData := p.chartData <|> r.chartData }

/-- Modelled from the spec: `update(id, ...)` on an absent record is a no-op
returning nothing (`get`/`update` are by-id; the store is restricted to the
single record of the analysis id under consideration). -/
def updateAnalysisM (store : Option AnalysisRecord) (p : AnalysisPatch) :
    Option AnalysisRecord :=
  store.map (fun r => applyPatch r p)

/-- `CodeAnalyzer.INPUT_SIZES`. -/
def INPUT_SIZES : List Int := [100, 500, 1000, 2000, 5000]

/-- Environment of one `analyzeComplexity(analysisId)` run: the record under
the given id (if any) and the fault injected at each collaborator call
(`none` = the call does not throw).  `batch` is the outcome of
`SandboxExecutor.executeCodeParallel` on the filtered size list, and
`classifyFault` a throw from the classification/derivation phase (step 5). -/
structure RunEnv where
  store : Option AnalysisRecord
  updRunningFault : Option Exc := none
  batch : List Int → Except Exc (List ExecutionResult)
  classifyFault : Option Exc := none
  updCompletedFault : Option Exc := none
  recoverFault : Option Exc := none

/-- The try block of `analyzeComplexity`: returns the store after the last
completed update together with the exception that escaped the block, if
any. -/
def runTry (env : RunEnv) : Option AnalysisRecord × Option Exc :=
  match env.store with
  | none => (env.store, some (some ("Analysis not found")))
  | some analysis =>
    match env.updRunningFault with
    | some e => (env.store, some e)
    | none =>
      let store1 := updateAnalysisM env.store { status := some ("running") }
      let inputSizes := INPUT_SIZES.filter (fun size => size ≤ analysis.maxInputSize)
      match env.batch inputSizes with
      | Except.error e => (store1, some e)
      | Except.ok results =>
        match env.classifyFault with
        | some e => (store1, some e)
        | none =>
          let complexityAnalysis := detectComplexity results analysis.code
          let warnings := generateWarnings results complexityAnalysis
          let recommendations := generateRecommendations complexityAnalysis analysis.language
          let learningResources := getLearningResources
            complexityAnalysis.algorithmCategory complexityAnalysis.algorithmName
          let chartData := generateChartData results
          match env.updCompletedFault with
          | some e => (store1, some e)
          | none =>
            (updateAnalysisM store1
              { status := some ("completed")
                timeComplexityBest := some complexityAnalysis.timeComplexityBest
                timeComplexityAverage := some complexityAnalysis.timeComplexityAverage
                timeComplexityWorst := some complexityAnalysis.timeComplexityWorst
                spaceComplexity := some complexityAnalysis.spaceComplexity
                algorithmName := complexityAnalysis.algorithmName
                algorithmCategory := complexityAnalysis.algorithmCategory
                algorithmType := complexityAnalysis.algorithmType
                executionResults := some results
                warnings := some warnings
                recommendations := some recommendations
                learningResources := some learningResources
                chartData := some chartData },
             none)

/-- `analyzeComplexity(analysisId)`: the try block, then the catch handler
persisting status `error` with a single high-severity warning.  Returns the
final store and the exception escaping the whole routine (the rejection of
the returned promise), if any. -/
def analyzeComplexityM (env : RunEnv) : Option AnalysisRecord × Option Exc :=
  match runTry env with
  | (s, none) => (s, none)
  | (s, some e) =>
    match env.recoverFault with
    | some e2 => (s, some e2)
    | none =>
      (updateAnalysisM s
        { status := some ("error")
          warnings := some [{ type := "error", message := excMessage e, severity := "high" }] },
       none)

/-- The per-pair growth-ratio list exactly as the claim phrases it: for each
adjacent pair whose earlier runtime is positive,
`(runtime[i]/runtime[i-1]) / (size[i]/size[i-1])`, in ℚ. -/
def specRatios : List ExecutionResult → List ℚ
  | [] => []
  | [_] => []
  | p :: c :: rest =>
    (if 0 < p.runtime then
      [(c.runtime / p.runtime) / ((c.inputSize : ℚ) / (p.inputSize : ℚ))] else []) ++
    specRatios (c :: rest)

/-- The claim's threshold map on the mean ratio. -/
def ratioLabel (q : ℚ) : String :=
  if q < 1.5 then "O(1)" else
  if q < 3 then "O(log n)" else
  if q < 5 then "O(n)" else
  if q < 10 then "O(n log n)" else
  if q < 20 then "O(n²)" else
  "O(n³) or higher"

/-! ### Helper lemmas -/

/-- The nested keyword loop of `detectAlgorithm` is the first catalog entry
with any matching keyword. -/
theorem findAlg_eq_find? (cn : List Char) (l : List AlgorithmCatalogEntry) :
    findAlg cn l = l.find? (fun a => a.keywords.any (keywordMatches cn)) := by
  induction l with
  | nil => rfl
  | cons a rest ih =>
    unfold findAlg
    by_cases h : a.keywords.any (keywordMatches cn) <;> simp [h, ih, List.find?]

/-! ### C5 -/

/-- C5: with no catalog keyword match and fewer than two successful results,
classification reports every complexity field as `Unable to determine` with
confidence 0 and attaches the full input sequence as `testResults`. -/
theorem c5_insufficient_data (results : List ExecutionResult) (code : String)
    (hno : detectAlgorithm code = none)
    (hlt : (results.filter (fun r => r.status == "success")).length < 2) :
    detectComplexity results code =
      { timeComplexityBest := "Unable to determine"
        timeComplexityAverage := "Unable to determine"
        timeComplexityWorst := "Unable to determine"
        spaceComplexity := "Unable to determine"
        confidence := 0
        algorithmName := none
        algorithmCategory := none
        algorithmType := none
        testResults := results } := by
  unfold detectComplexity
  rw [hno]
  simp [hlt]

/-- Closed instance of `c5_insufficient_data`: one successful result, no
catalog keyword in the code. -/
theorem c5_insufficient_data_witness :
    detectComplexity [{ inputSize := 100, runtime := 1, memoryUsage := 10, status := "success" }] "zzz" =
      { timeComplexityBest := "Unable to determine"
        timeComplexityAverage := "Unable to determine"
        timeComplexityWorst := "Unable to determine"
        spaceComplexity := "Unable to determine"
        confidence := 0
        algorithmName := none
        algorithmCategory := none
        algorithmType := none
        testResults := [{ inputSize := 100, runtime := 1, memoryUsage := 10, status := "success" }] } :=
  c5_insufficient_data _ _ (by decide) (by decide)

/-! ### C2 -/

/-- C2: when the normalized source contains some catalog entry's normalized
keyword, classification returns the first matching entry in declaration
order, with that entry's labels verbatim, confidence 0.9, the entry's
name/category as the algorithm identity — and the measured results influence
nothing but the attached `testResults`. -/
theorem c2_catalog_precedence (code : String) (results results' : List ExecutionResult)
    (h : ∃ e ∈ ALGORITHM_CATALOG, ∃ kw ∈ e.keywords,
          hasSub (normalizeStr code) (normalizeStr kw) = true) :
    ∃ e, detectAlgorithm code = some e ∧
      ALGORITHM_CATALOG.find? (fun a => a.keywords.any (keywordMatches (normalizeStr code))) = some e ∧
      detectComplexity results code =
        { timeComplexityBest := e.timeComplexityBest
          timeComplexityAverage := e.timeComplexityAverage
          timeComplexityWorst := e.timeComplexityWorst
          spaceComplexity := e.spaceComplexity
          confidence := 0.9
          algorithmName := some e.name
          algorithmCategory := some e.category
          algorithmType := some e.name
          testResults := results } ∧
      detectComplexity results' code =
        { detectComplexity results code with testResults := results' } := by
  have hsome : (ALGORITHM_CATALOG.find?
      (fun a => a.keywords.any (keywordMatches (normalizeStr code)))).isSome := by
    rw [List.find?_isSome]
    obtain ⟨e, he, kw, hkw, hmatch⟩ := h
    exact ⟨e, he, by simp [List.any_eq_true]; exact ⟨kw, hkw, hmatch⟩⟩
  obtain ⟨e, he⟩ := Option.isSome_iff_exists.mp hsome
  have hda : detectAlgorithm code = some e := by
    rw [detectAlgorithm, findAlg_eq_find?, he]
  refine ⟨e, hda, he, ?_, ?_⟩ <;> (unfold detectComplexity; rw [hda])

/-- Closed instance of `c2_catalog_precedence`: code containing `bubblesort`,
checked against an empty and a one-element result list. -/
theorem c2_catalog_precedence_witness :
    ∃ e, detectAlgorithm "bubblesort" = some e ∧
      ALGORITHM_CATALOG.find? (fun a => a.keywords.any (keywordMatches (normalizeStr "bubblesort"))) = some e ∧
      detectComplexity [] "bubblesort" =
        { timeComplexityBest := e.timeComplexityBest
          timeComplexityAverage := e.timeComplexityAverage
          timeComplexityWorst := e.timeComplexityWorst
          spaceComplexity := e.spaceComplexity
          confidence := 0.9
          algorithmName := some e.name
          algorithmCategory := some e.category
          algorithmType := some e.name
          testResults := [] } ∧
      detectComplexity [{ inputSize := 100, runtime := 1, memoryUsage := 10, status := "success" }] "bubblesort" =
        { detectComplexity [] "bubblesort" with
          testResults := [{ inputSize := 100, runtime := 1, memoryUsage := 10, status := "success" }] } :=
  c2_catalog_precedence "bubblesort" []
    [{ inputSize := 100, runtime := 1, memoryUsage := 10, status := "success" }] (by decide)

/-! ### C8 -/

/-- A filtered list is nonempty exactly when some element satisfies the
predicate. -/
theorem filter_len_pos_iff_any (p : ExecutionResult → Bool) (l : List ExecutionResult) :
    (0 < (l.filter p).length) ↔ l.any p = true := by
  simp [List.length_pos, List.any_eq_true, List.filter_eq_nil_iff]

/-- Membership in a conditional singleton forces the element. -/
theorem mem_if_singleton {α : Type} {c : Prop} [Decidable c] {a w : α}
    (h : w ∈ (if c then [a] else [])) : w = a := by
  split at h
  · simpa using h
  · simp at h

/-- C8: `generateWarnings` emits exactly one high-severity `timeout` warning
(listing every timed-out size) iff some result timed out, exactly one
high-severity `error` warning (listing every errored size) iff some result
errored, exactly one medium-severity `performance` warning iff the
worst-case label is `O(n²)`, `O(n³) or higher` or contains `!`, and exactly
one medium-severity `memory` warning iff some result's memory usage exceeds
500. -/
theorem c8_warning_generation (results : List ExecutionResult) (analysis : ComplexityAnalysis) :
    ((generateWarnings results analysis).countP (fun w => w.type == "timeout") =
      (if results.any (fun r => r.status == "timeout") then 1 else 0)) ∧
    (∀ w ∈ generateWarnings results analysis, w.type = "timeout" →
      w.severity = "high" ∧
      w.message = "Execution timed out for input sizes: " ++
        String.intercalate (", ")
          ((results.filter (fun r => r.status == "timeout")).map (fun r => toString r.inputSize))) ∧
    ((generateWarnings results analysis).countP (fun w => w.type == "error") =
      (if results.any (fun r => r.status == "error") then 1 else 0)) ∧
    (∀ w ∈ generateWarnings results analysis, w.type = "error" →
      w.severity = "high" ∧
      w.message = "Execution failed for input sizes: " ++
        String.intercalate (", ")
          ((results.filter (fun r => r.status == "error")).map (fun r => toString r.inputSize))) ∧
    ((generateWarnings results analysis).countP (fun w => w.type == "performance") =
      (if analysis.timeComplexityWorst = "O(n²)" ∨ analysis.timeComplexityWorst = "O(n³) or higher" ∨
          hasSub analysis.timeComplexityWorst.data ['!'] = true then 1 else 0)) ∧
    (∀ w ∈ generateWarnings results analysis, w.type = "performance" → w.severity = "medium") ∧
    ((generateWarnings results analysis).countP (fun w => w.type == "memory") =
      (if results.any (fun r => r.memoryUsage > 500) then 1 else 0)) ∧
    (∀ w ∈ generateWarnings results analysis, w.type = "memory" → w.severity = "medium") := by
  refine ⟨?_, ?_, ?_, ?_, ?_, ?_, ?_, ?_⟩
  · simp only [generateWarnings]
    split_ifs <;> simp_all [List.countP_append, List.countP_cons, filter_len_pos_iff_any]
  · simp only [generateWarnings]
    intro w hw hty
    rw [List.mem_append, List.mem_append, List.mem_append] at hw
    rcases hw with ((h | h) | h) | h <;> (have he := mem_if_singleton h; subst he) <;>
      first
        | exact ⟨rfl, rfl⟩
        | (simp at hty)
  · simp only [generateWarnings]
    split_ifs <;> simp_all [List.countP_append, List.countP_cons, filter_len_pos_iff_any]
  · simp only [generateWarnings]
    intro w hw hty
    rw [List.mem_append, List.mem_append, List.mem_append] at hw
    rcases hw with ((h | h) | h) | h <;> (have he := mem_if_singleton h; subst he) <;>
      first
        | exact ⟨rfl, rfl⟩
        | (simp at hty)
  · simp only [generateWarnings]
    split_ifs <;> simp_all [List.countP_append, List.countP_cons, filter_len_pos_iff_any]
  · simp only [generateWarnings]
    intro w hw hty
    rw [List.mem_append, List.mem_append, List.mem_append] at hw
    rcases hw with ((h | h) | h) | h <;> (have he := mem_if_singleton h; subst he) <;>
      first
        | rfl
        | (simp at hty)
  · simp only [generateWarnings]
    split_ifs <;> simp_all [List.countP_append, List.countP_cons, filter_len_pos_iff_any]
  · simp only [generateWarnings]
    intro w hw hty
    rw [List.mem_append, List.mem_append, List.mem_append] at hw
    rcases hw with ((h | h) | h) | h <;> (have he := mem_if_singleton h; subst he) <;>
      first
        | rfl
        | (simp at hty)

/-! ### C4 -/


/-- JS division of finite values with a nonzero divisor is exact rational
division. -/
theorem JsNum.div_num {a b : ℚ} (hb : b ≠ 0) :
    JsNum.div (JsNum.num a) (JsNum.num b) = JsNum.num (a / b) := by
  simp [JsNum.div, hb]

/-- With positive input sizes, the source's ratio loop computes exactly the
claim's rational ratio list. -/
theorem adjacentRatios_eq_spec :
    ∀ rs : List ExecutionResult, (∀ r ∈ rs, 0 < r.inputSize) →
      adjacentRatios rs = (specRatios rs).map JsNum.num := by
  intro rs
  induction rs with
  | nil => intro _; rfl
  | cons p rest ih =>
    intro hpos
    cases rest with
    | nil => rfl
    | cons c rest2 =>
      have hp : (0 : ℚ) < (p.inputSize : ℚ) := by
        exact_mod_cast hpos p (by simp)
      have hc : (0 : ℚ) < (c.inputSize : ℚ) := by
        exact_mod_cast hpos c (by simp)
      simp only [adjacentRatios, specRatios, List.map_append]
      rw [ih (fun r hr => hpos r (List.mem_cons_of_mem _ hr))]
      congr 1
      by_cases hpr : p.runtime > 0
      · rw [if_pos hpr, if_pos hpr]
        have hprne : p.runtime ≠ 0 := ne_of_gt hpr
        have hsize : (c.inputSize : ℚ) / (p.inputSize : ℚ) ≠ 0 :=
          ne_of_gt (div_pos hc hp)
        rw [JsNum.div_num hprne, JsNum.div_num (ne_of_gt hp), JsNum.div_num hsize]
        rfl
      · rw [if_neg hpr, if_neg hpr]
        rfl

/-- Folding JS addition over finite values is rational summation. -/
theorem foldl_add_num (l : List ℚ) (acc : ℚ) :
    (l.map JsNum.num).foldl JsNum.add (JsNum.num acc) = JsNum.num (acc + l.sum) := by
  induction l generalizing acc with
  | nil => simp
  | cons q l ih => simp [JsNum.add, ih, add_assoc]

/-- When at least one pair qualifies, `detectTimeComplexity` is the claim's
threshold map applied to the mean of the claim's ratio list. -/
theorem detectTime_eq_ratioLabel (rs : List ExecutionResult)
    (hpos : ∀ r ∈ rs, 0 < r.inputSize) (h2 : 2 ≤ rs.length)
    (hne : specRatios rs ≠ []) :
    detectTimeComplexity rs = ratioLabel ((specRatios rs).sum / ((specRatios rs).length : ℚ)) := by
  unfold detectTimeComplexity
  rw [if_neg (by omega)]
  rw [adjacentRatios_eq_spec rs hpos]
  have hlen : ((specRatios rs).length : ℚ) ≠ 0 := by
    have h0 : (specRatios rs).length ≠ 0 := by
      simpa [List.length_eq_zero] using hne
    exact_mod_cast h0
  simp only [List.length_map, foldl_add_num, zero_add, JsNum.div_num hlen]
  simp only [ratioLabel, JsNum.lt, decide_eq_true_eq]

/-- C4: over ≥ 2 successful results (positive sizes, at least one pair with
positive earlier runtime) and no catalog match, classification averages the
per-pair `(runtime ratio)/(size ratio)` values, maps the mean through the
thresholds `1.5/3/5/10/20`, and uses the single label for best, average and
worst with confidence 0.6. -/
theorem c4_empirical_threshold_map (code : String) (results : List ExecutionResult)
    (hno : detectAlgorithm code = none)
    (hpos : ∀ r ∈ results, 0 < r.inputSize)
    (h2 : 2 ≤ (results.filter (fun r => r.status == "success")).length)
    (hne : specRatios (results.filter (fun r => r.status == "success")) ≠ []) :
    detectComplexity results code =
      { timeComplexityBest :=
          ratioLabel ((specRatios (results.filter (fun r => r.status == "success"))).sum /
            ((specRatios (results.filter (fun r => r.status == "success"))).length : ℚ))
        timeComplexityAverage :=
          ratioLabel ((specRatios (results.filter (fun r => r.status == "success"))).sum /
            ((specRatios (results.filter (fun r => r.status == "success"))).length : ℚ))
        timeComplexityWorst :=
          ratioLabel ((specRatios (results.filter (fun r => r.status == "success"))).sum /
            ((specRatios (results.filter (fun r => r.status == "success"))).length : ℚ))
        spaceComplexity := detectSpaceComplexity (results.filter (fun r => r.status == "success"))
        confidence := 0.6
        algorithmName := none
        algorithmCategory := none
        algorithmType := some ("Unknown Algorithm")
        testResults := results } := by
  have hss : ∀ r ∈ results.filter (fun r => r.status == "success"), 0 < r.inputSize :=
    fun r hr => hpos r (List.mem_of_mem_filter hr)
  have key := detectTime_eq_ratioLabel _ hss h2 hne
  unfold detectComplexity
  rw [hno]
  simp only [key, if_neg (not_lt.mpr h2)]

/-- Closed instance of `c4_empirical_threshold_map`: runtimes 1 and 10 over
sizes 100 and 500 give mean ratio 2, hence `O(log n)` everywhere with
confidence 0.6. -/
theorem c4_empirical_threshold_map_witness :
    detectComplexity
      [{ inputSize := 100, runtime := 1, memoryUsage := 10, status := "success" },
       { inputSize := 500, runtime := 10, memoryUsage := 10, status := "success" }] "zzz" =
      { timeComplexityBest :=
          ratioLabel ((specRatios (([{ inputSize := 100, runtime := 1, memoryUsage := 10, status := "success" },
            { inputSize := 500, runtime := 10, memoryUsage := 10, status := "success" }] : List ExecutionResult).filter
              (fun r => r.status == "success"))).sum /
            ((specRatios (([{ inputSize := 100, runtime := 1, memoryUsage := 10, status := "success" },
              { inputSize := 500, runtime := 10, memoryUsage := 10, status := "success" }] : List ExecutionResult).filter
                (fun r => r.status == "success"))).length : ℚ))
        timeComplexityAverage :=
          ratioLabel ((specRatios (([{ inputSize := 100, runtime := 1, memoryUsage := 10, status := "success" },
            { inputSize := 500, runtime := 10, memoryUsage := 10, status := "success" }] : List ExecutionResult).filter
              (fun r => r.status == "success"))).sum /
            ((specRatios (([{ inputSize := 100, runtime := 1, memoryUsage := 10, status := "success" },
              { inputSize := 500, runtime := 10, memoryUsage := 10, status := "success" }] : List ExecutionResult).filter
                (fun r => r.status == "success"))).length : ℚ))
        timeComplexityWorst :=
          ratioLabel ((specRatios (([{ inputSize := 100, runtime := 1, memoryUsage := 10, status := "success" },
            { inputSize := 500, runtime := 10, memoryUsage := 10, status := "success" }] : List ExecutionResult).filter
              (fun r => r.status == "success"))).sum /
            ((specRatios (([{ inputSize := 100, runtime := 1, memoryUsage := 10, status := "success" },
              { inputSize := 500, runtime := 10, memoryUsage := 10, status := "success" }] : List ExecutionResult).filter
                (fun r => r.status == "success"))).length : ℚ))
        spaceComplexity := detectSpaceComplexity
          (([{ inputSize := 100, runtime := 1, memoryUsage := 10, status := "success" },
            { inputSize := 500, runtime := 10, memoryUsage := 10, status := "success" }] : List ExecutionResult).filter
              (fun r => r.status == "success"))
        confidence := 0.6
        algorithmName := none
        algorithmCategory := none
        algorithmType := some ("Unknown Algorithm")
        testResults :=
          [{ inputSize := 100, runtime := 1, memoryUsage := 10, status := "success" },
           { inputSize := 500, runtime := 10, memoryUsage := 10, status := "success" }] } :=
  c4_empirical_threshold_map "zzz" _ (by decide) (by decide) (by decide) (by decide)

/-! ### C10 -/

/-- When every non-final element has nonpositive runtime, every pair is
skipped and the ratio list is empty. -/
theorem adjacentRatios_eq_nil :
    ∀ rs : List ExecutionResult, (∀ r ∈ rs.dropLast, r.runtime ≤ 0) →
      adjacentRatios rs = [] := by
  intro rs
  induction rs with
  | nil => intro _; rfl
  | cons p rest ih =>
    intro hz
    cases rest with
    | nil => rfl
    | cons c rest2 =>
      have hp : p.runtime ≤ 0 := hz p (by simp [List.dropLast])
      simp only [adjacentRatios, if_neg (not_lt.mpr hp), List.nil_append]
      exact ih (fun r hr => hz r (by simp [List.dropLast] at hr ⊢; tauto))

/-- C10: with ≥ 2 successful results, all of them but the last of runtime
≤ 0, and no catalog match: the ratio list is empty, the JS mean is `0/0 =
NaN`, every threshold comparison is false, and the classifier reports
`O(n³) or higher` with confidence 0.6 instead of `Unable to determine`. -/
theorem c10_nan_mean_fallthrough (code : String) (results : List ExecutionResult)
    (hno : detectAlgorithm code = none)
    (h2 : 2 ≤ (results.filter (fun r => r.status == "success")).length)
    (hz : ∀ r ∈ (results.filter (fun r => r.status == "success")).dropLast, r.runtime ≤ 0) :
    adjacentRatios (results.filter (fun r => r.status == "success")) = [] ∧
    (detectComplexity results code).timeComplexityBest = "O(n³) or higher" ∧
    (detectComplexity results code).timeComplexityAverage = "O(n³) or higher" ∧
    (detectComplexity results code).timeComplexityWorst = "O(n³) or higher" ∧
    (detectComplexity results code).confidence = 0.6 := by
  have hnil := adjacentRatios_eq_nil _ hz
  have htime : detectTimeComplexity (results.filter (fun r => r.status == "success")) =
      "O(n³) or higher" := by
    unfold detectTimeComplexity
    rw [if_neg (by omega)]
    simp [hnil, JsNum.div, JsNum.lt]
  refine ⟨hnil, ?_⟩
  unfold detectComplexity
  rw [hno]
  simp [htime, if_neg (not_lt.mpr h2)]

/-- Closed instance of `c10_nan_mean_fallthrough`: two successful results
whose first runtime is 0. -/
theorem c10_nan_mean_fallthrough_witness :
    adjacentRatios (([{ inputSize := 100, runtime := 0, memoryUsage := 10, status := "success" },
      { inputSize := 500, runtime := 1, memoryUsage := 10, status := "success" }] : List ExecutionResult).filter
        (fun r => r.status == "success")) = [] ∧
    (detectComplexity
      [{ inputSize := 100, runtime := 0, memoryUsage := 10, status := "success" },
       { inputSize := 500, runtime := 1, memoryUsage := 10, status := "success" }] "zzz").timeComplexityBest =
      "O(n³) or higher" ∧
    (detectComplexity
      [{ inputSize := 100, runtime := 0, memoryUsage := 10, status := "success" },
       { inputSize := 500, runtime := 1, memoryUsage := 10, status := "success" }] "zzz").timeComplexityAverage =
      "O(n³) or higher" ∧
    (detectComplexity
      [{ inputSize := 100, runtime := 0, memoryUsage := 10, status := "success" },
       { inputSize := 500, runtime := 1, memoryUsage := 10, status := "success" }] "zzz").timeComplexityWorst =
      "O(n³) or higher" ∧
    (detectComplexity
      [{ inputSize := 100, runtime := 0, memoryUsage := 10, status := "success" },
       { inputSize := 500, runtime := 1, memoryUsage := 10, status := "success" }] "zzz").confidence = 0.6 :=
  c10_nan_mean_fallthrough "zzz" _ (by decide) (by decide) (by decide)

/-! ### C3 -/

/-- The emitted `inputSize`s are the requested sizes truncated at a group
boundary. -/
theorem parallel_map_take (exec : Int → ExecutionResult) (hid : ∀ n, (exec n).inputSize = n)
    (sizes : List Int) :
    ∃ k, (executeCodeParallelM exec sizes).map (fun r => r.inputSize) = sizes.take (4 * k) := by
  have hmapid : ∀ l : List Int, List.map ((fun r => r.inputSize) ∘ exec) l = l := by
    intro l
    have : ((fun r => r.inputSize) ∘ exec) = fun s => (exec s).inputSize := rfl
    rw [this]
    simp [hid]
  induction sizes using executeCodeParallelM.induct exec with
  | case1 => exact ⟨0, by simp [executeCodeParallelM]⟩
  | case2 x hne batch hfail =>
    refine ⟨1, ?_⟩
    rw [executeCodeParallelM]
    simp only [if_neg hne, if_pos hfail]
    rw [List.map_map, hmapid]
    simp [MAX_PARALLEL_EXECUTIONS]
  | case3 x hne batch hnofail ih =>
    obtain ⟨k, hk⟩ := ih
    refine ⟨k + 1, ?_⟩
    rw [executeCodeParallelM]
    simp only [if_neg hne, if_neg hnofail]
    rw [List.map_append, hk]
    have hbatch : (List.map exec (x.take MAX_PARALLEL_EXECUTIONS)).map (fun r => r.inputSize) =
        x.take 4 := by
      rw [List.map_map, hmapid]
      simp [MAX_PARALLEL_EXECUTIONS]
    rw [hbatch]
    have h4 : 4 * (k + 1) = 4 + 4 * k := by ring
    rw [h4, List.take_add]
    simp [MAX_PARALLEL_EXECUTIONS]

/-- A failing result inside the output closes the output at its own group of
four: nothing from a later group is emitted. -/
theorem parallel_stops_after_failure (exec : Int → ExecutionResult)
    (sizes : List Int) :
    ∀ p, (hp : p < (executeCodeParallelM exec sizes).length) →
      ((executeCodeParallelM exec sizes)[p].status = "error" ∨
       (executeCodeParallelM exec sizes)[p].status = "timeout") →
      (executeCodeParallelM exec sizes).length ≤ 4 * (p / 4) + 4 := by
  induction sizes using executeCodeParallelM.induct exec with
  | case1 =>
    intro p hp _
    rw [executeCodeParallelM] at hp
    simp at hp
  | case2 x hne batch hfail =>
    intro p hp _
    rw [executeCodeParallelM]
    rw [executeCodeParallelM] at hp
    simp only [if_neg hne, if_pos hfail] at hp ⊢
    have hlen : (List.map exec (x.take MAX_PARALLEL_EXECUTIONS)).length ≤ 4 := by
      simp [MAX_PARALLEL_EXECUTIONS]
    omega
  | case3 x hne batch hnofail ih =>
    intro p hp hfl
    have heq : executeCodeParallelM exec x =
        List.map exec (x.take MAX_PARALLEL_EXECUTIONS) ++
          executeCodeParallelM exec (x.drop MAX_PARALLEL_EXECUTIONS) := by
      rw [executeCodeParallelM]
      simp only [if_neg hne, if_neg hnofail]
    simp only [heq] at hp hfl ⊢
    rw [List.length_append] at hp ⊢
    by_cases hcase : p < (List.map exec (x.take MAX_PARALLEL_EXECUTIONS)).length
    · exfalso
      rw [List.getElem_append_left hcase] at hfl
      have hmem : (List.map exec (x.take MAX_PARALLEL_EXECUTIONS))[p] ∈
          List.map exec (x.take MAX_PARALLEL_EXECUTIONS) := List.getElem_mem _
      have hnf : ∀ r ∈ List.map exec (x.take MAX_PARALLEL_EXECUTIONS),
          ¬(r.status == "error" || r.status == "timeout") = true := by
        intro r hr hcon
        exact hnofail (List.any_eq_true.mpr ⟨r, hr, hcon⟩)
      have := hnf _ hmem
      simp only [Bool.or_eq_true, beq_iff_eq] at this
      tauto
    · push_neg at hcase
      have hrec := ih (p - (List.map exec (x.take MAX_PARALLEL_EXECUTIONS)).length) (by omega)
      rw [List.getElem_append_right hcase] at hfl
      have h2 := hrec hfl
      have hbl : (List.map exec (x.take MAX_PARALLEL_EXECUTIONS)).length =
          min MAX_PARALLEL_EXECUTIONS x.length := by
        simp
      by_cases hxl : x.length ≤ 4
      · have hrecnil : (executeCodeParallelM exec (x.drop MAX_PARALLEL_EXECUTIONS)) = [] := by
          have hdrop : x.drop MAX_PARALLEL_EXECUTIONS = [] := by
            rw [List.drop_eq_nil_iff]
            simpa [MAX_PARALLEL_EXECUTIONS] using hxl
          rw [hdrop, executeCodeParallelM]
          simp
        rw [hrecnil] at hp h2 ⊢
        simp at hp
        omega
      · push_neg at hxl
        have hfull : (List.map exec (x.take MAX_PARALLEL_EXECUTIONS)).length = 4 := by
          rw [hbl]
          simp [MAX_PARALLEL_EXECUTIONS]
          omega
        rw [hfull] at hcase h2 hp ⊢
        omega

/-- C3: the batch executor's output `inputSize` sequence is the requested
size list truncated at a boundary of the groups of four (hence non-decreasing
whenever the request is), and any timeout/error in the output bounds the
output inside that result's own group — nothing from a subsequent group
appears. -/
theorem c3_parallel_prefix_and_early_exit (exec : Int → ExecutionResult)
    (hid : ∀ n, (exec n).inputSize = n) (sizes : List Int) :
    (∃ k, (executeCodeParallelM exec sizes).map (fun r => r.inputSize) = sizes.take (4 * k)) ∧
    (∀ p, (hp : p < (executeCodeParallelM exec sizes).length) →
      ((executeCodeParallelM exec sizes)[p].status = "error" ∨
       (executeCodeParallelM exec sizes)[p].status = "timeout") →
      (executeCodeParallelM exec sizes).length ≤ 4 * (p / 4) + 4) ∧
    (List.Pairwise (· ≤ ·) sizes →
      List.Pairwise (· ≤ ·) ((executeCodeParallelM exec sizes).map (fun r => r.inputSize))) := by
  refine ⟨parallel_map_take exec hid sizes, parallel_stops_after_failure exec sizes, ?_⟩
  intro hs
  obtain ⟨k, hk⟩ := parallel_map_take exec hid sizes
  rw [hk]
  exact List.Pairwise.sublist (List.take_sublist _ _) hs

/-- Closed instance of `c3_parallel_prefix_and_early_exit` on the default
size ladder with an all-success executor. -/
theorem c3_parallel_prefix_and_early_exit_witness :
    (∃ k, (executeCodeParallelM
        (fun n => { inputSize := n, runtime := 1, memoryUsage := 1, status := "success" })
        INPUT_SIZES).map (fun r => r.inputSize) = INPUT_SIZES.take (4 * k)) ∧
    (∀ p, (hp : p < (executeCodeParallelM
        (fun n => { inputSize := n, runtime := 1, memoryUsage := 1, status := "success" })
        INPUT_SIZES).length) →
      (((executeCodeParallelM
          (fun n => { inputSize := n, runtime := 1, memoryUsage := 1, status := "success" })
          INPUT_SIZES)[p].status = "error") ∨
       ((executeCodeParallelM
          (fun n => { inputSize := n, runtime := 1, memoryUsage := 1, status := "success" })
          INPUT_SIZES)[p].status = "timeout")) →
      (executeCodeParallelM
        (fun n => { inputSize := n, runtime := 1, memoryUsage := 1, status := "success" })
        INPUT_SIZES).length ≤ 4 * (p / 4) + 4) ∧
    (List.Pairwise (· ≤ ·) INPUT_SIZES →
      List.Pairwise (· ≤ ·) ((executeCodeParallelM
        (fun n => { inputSize := n, runtime := 1, memoryUsage := 1, status := "success" })
        INPUT_SIZES).map (fun r => r.inputSize))) :=
  c3_parallel_prefix_and_early_exit
    (fun n => { inputSize := n, runtime := 1, memoryUsage := 1, status := "success" })
    (fun _ => rfl) INPUT_SIZES

/-! ### C6 -/

/-- C6: the cache only ever gains success results, and a successful first
call makes the second call on the identical (code, language, inputSize)
triple return the structurally equal result from the cache without spawning
any process.  (The 5-minute TTL is represented by the absence of a
cache-expiry event between the two calls; expiry is a separate deletion of
the key, never performed here.) -/
theorem c6_cache_success_only_and_hit (hash : String → String) (o1 o2 : ExecOracle)
    (cache : ExecCache) (config : ExecutionConfig) :
    (∀ kv ∈ (executeCodeM hash o1 cache config).2.1, kv ∈ cache ∨ kv.2.status = "success") ∧
    ((executeCodeM hash o1 cache config).1.status = "success" →
      executeCodeM hash o2 (executeCodeM hash o1 cache config).2.1 config =
        ((executeCodeM hash o1 cache config).1, (executeCodeM hash o1 cache config).2.1, false)) := by
  rcases hl : List.lookup (cacheKey hash config) cache with _ | cached
  case some =>
    have h1 : executeCodeM hash o1 cache config = (cached, cache, false) := by
      simp [executeCodeM, hl]
    constructor
    · intro kv hkv
      rw [h1] at hkv
      exact Or.inl hkv
    · intro _
      rw [h1]
      simp [executeCodeM, hl]
  case none =>
    rcases hm : o1.mkdtempFault with _ | m
    case some =>
      have h1 : executeCodeM hash o1 cache config =
          ({ inputSize := config.inputSize, runtime := o1.elapsed, memoryUsage := 0,
             status := "error", error := some m }, cache, false) := by
        simp [executeCodeM, hl, hm]
      constructor
      · intro kv hkv
        rw [h1] at hkv
        exact Or.inl hkv
      · intro hcon
        rw [h1] at hcon
        simp at hcon
    case none =>
      rcases hr : runInSandboxM o1 config with e | res
      case error =>
        have h1 : executeCodeM hash o1 cache config =
            ({ inputSize := config.inputSize, runtime := o1.elapsed, memoryUsage := 0,
               status := "error", error := some e }, cache, false) := by
          simp [executeCodeM, hl, hm, hr]
        constructor
        · intro kv hkv
          rw [h1] at hkv
          exact Or.inl hkv
        · intro hcon
          rw [h1] at hcon
          simp at hcon
      case ok =>
        by_cases hs : res.status = "success"
        · have h1 : executeCodeM hash o1 cache config =
              ({ inputSize := config.inputSize, runtime := o1.elapsed,
                 memoryUsage := res.memoryUsage, status := res.status, error := res.error },
               (cacheKey hash config,
                 ({ inputSize := config.inputSize, runtime := o1.elapsed,
                    memoryUsage := res.memoryUsage, status := res.status,
                    error := res.error } : ExecutionResult)) :: cache, true) := by
            simp [executeCodeM, hl, hm, hr, hs]
          constructor
          · intro kv hkv
            rw [h1] at hkv
            rcases List.mem_cons.mp hkv with h | h
            · right
              rw [h]
              exact hs
            · exact Or.inl h
          · intro _
            rw [h1]
            simp [executeCodeM, List.lookup]
        · have h1 : executeCodeM hash o1 cache config =
              ({ inputSize := config.inputSize, runtime := o1.elapsed,
                 memoryUsage := res.memoryUsage, status := res.status, error := res.error },
               cache, true) := by
            simp [executeCodeM, hl, hm, hr, hs]
          constructor
          · intro kv hkv
            rw [h1] at hkv
            exact Or.inl hkv
          · intro hcon
            rw [h1] at hcon
            exact absurd hcon hs

/-- Closed instance of `c6_cache_success_only_and_hit`: a successful child
run on an empty cache followed by a second call. -/
theorem c6_cache_success_only_and_hit_witness :
    (∀ kv ∈ (executeCodeM (fun _ => "h")
        { event := SpawnEvent.closed 0 "", memoryPeak := 10, elapsed := 1 } []
        { code := "x", language := "python", inputSize := 100, timeout := 10000 }).2.1,
      kv ∈ ([] : ExecCache) ∨ kv.2.status = "success") ∧
    ((executeCodeM (fun _ => "h")
        { event := SpawnEvent.closed 0 "", memoryPeak := 10, elapsed := 1 } []
        { code := "x", language := "python", inputSize := 100, timeout := 10000 }).1.status = "success" →
      executeCodeM (fun _ => "h")
        { event := SpawnEvent.timedOut, memoryPeak := 5, elapsed := 9 }
        (executeCodeM (fun _ => "h")
          { event := SpawnEvent.closed 0 "", memoryPeak := 10, elapsed := 1 } []
          { code := "x", language := "python", inputSize := 100, timeout := 10000 }).2.1
        { code := "x", language := "python", inputSize := 100, timeout := 10000 } =
        ((executeCodeM (fun _ => "h")
            { event := SpawnEvent.closed 0 "", memoryPeak := 10, elapsed := 1 } []
            { code := "x", language := "python", inputSize := 100, timeout := 10000 }).1,
         (executeCodeM (fun _ => "h")
            { event := SpawnEvent.closed 0 "", memoryPeak := 10, elapsed := 1 } []
            { code := "x", language := "python", inputSize := 100, timeout := 10000 }).2.1,
         false)) :=
  c6_cache_success_only_and_hit (fun _ => "h")
    { event := SpawnEvent.closed 0 "", memoryPeak := 10, elapsed := 1 }
    { event := SpawnEvent.timedOut, memoryPeak := 5, elapsed := 9 } []
    { code := "x", language := "python", inputSize := 100, timeout := 10000 }

/-! ### C7 -/

/-- A successful association-list lookup locates a member. -/
theorem lookup_mem : ∀ (cache : ExecCache) (key : String) (v : ExecutionResult),
    List.lookup key cache = some v → (key, v) ∈ cache := by
  intro cache
  induction cache with
  | nil => intro key v h; simp [List.lookup] at h
  | cons kv rest ih =>
    intro key v h
    rcases kv with ⟨k, b⟩
    rw [List.lookup] at h
    by_cases hk : (key == k) = true
    · simp only [hk] at h
      have hkey : key = k := by simpa using hk
      have hv : b = v := by simpa using h
      rw [hkey, hv]
      exact List.mem_cons_self _ _
    · simp only [Bool.not_eq_true] at hk
      rw [hk] at h
      exact List.mem_cons_of_mem _ (ih _ _ h)

/-- The sandbox promise only ever resolves with one of the three statuses. -/
theorem runInSandbox_status (o : ExecOracle) (config : ExecutionConfig) (res : SandboxRes)
    (h : runInSandboxM o config = Except.ok res) :
    res.status = "success" ∨ res.status = "timeout" ∨ res.status = "error" := by
  unfold runInSandboxM at h
  rcases hg : getLanguageConfig config.language with e | lc <;> rw [hg] at h
  · simp at h
  · rcases hw : o.writeFault with _ | m <;> rw [hw] at h
    · have hres : (match o.event with
        | SpawnEvent.closed 0 _ => ({ status := "success", memoryUsage := o.memoryPeak } : SandboxRes)
        | SpawnEvent.closed c stderrText =>
          { status := "error", memoryUsage := o.memoryPeak
            error := some (if stderrText = "" then "Process exited with code " ++ toString c
                           else stderrText) }
        | SpawnEvent.failed m =>
          { status := "error", memoryUsage := o.memoryPeak, error := some m }
        | SpawnEvent.timedOut =>
          { status := "timeout", memoryUsage := o.memoryPeak
            error := some ("Execution timed out") }) = res := by
        injection h
      rw [← hres]
      split <;> simp
    · simp at h

/-- A language outside the four supported ones is rejected with the
`Unsupported language` error. -/
theorem getLanguageConfig_unsupported (language : String)
    (h : language ∉ (["python", "javascript", "java", "cpp"] : List String)) :
    getLanguageConfig language = Except.error ("Unsupported language: " ++ language) := by
  simp only [List.mem_cons, List.mem_singleton, not_or] at h
  obtain ⟨h1, h2, h3, h4, _⟩ := h
  simp [getLanguageConfig, h1, h2, h3, h4]

/-- C7: a call always yields exactly one result whose status is success,
timeout or error (given the cache invariant that cached entries are
successes); and an unsupported language — uncached, as such a key is never
inserted — produces an error without spawning, carrying the
unsupported-language message whenever scratch-directory setup itself did
not throw first. -/
theorem c7_total_and_unsupported_fails_fast (hash : String → String) (o : ExecOracle)
    (cache : ExecCache) (config : ExecutionConfig)
    (hcache : ∀ kv ∈ cache, kv.2.status = "success") :
    ((executeCodeM hash o cache config).1.status = "success" ∨
     (executeCodeM hash o cache config).1.status = "timeout" ∨
     (executeCodeM hash o cache config).1.status = "error") ∧
    (config.language ∉ (["python", "javascript", "java", "cpp"] : List String) →
      List.lookup (cacheKey hash config) cache = none →
      (executeCodeM hash o cache config).1.status = "error" ∧
      (executeCodeM hash o cache config).2.2 = false ∧
      (o.mkdtempFault = none →
        (executeCodeM hash o cache config).1.error =
          some ("Unsupported language: " ++ config.language))) := by
  rcases hl : List.lookup (cacheKey hash config) cache with _ | cached
  case some =>
    have hmem : (cacheKey hash config, cached) ∈ cache := lookup_mem cache _ cached hl
    have h1 : executeCodeM hash o cache config = (cached, cache, false) := by
      simp [executeCodeM, hl]
    constructor
    · rw [h1]
      exact Or.inl (hcache _ hmem)
    · intro _ hmiss
      exact absurd hmiss (by simp)
  case none =>
    rcases hm : o.mkdtempFault with _ | m
    case some =>
      have h1 : executeCodeM hash o cache config =
          ({ inputSize := config.inputSize, runtime := o.elapsed, memoryUsage := 0,
             status := "error", error := some m }, cache, false) := by
        simp [executeCodeM, hl, hm]
      constructor
      · rw [h1]
        right; right; rfl
      · intro _ _
        rw [h1]
        refine ⟨rfl, rfl, ?_⟩
        intro hnone
        exact absurd hnone (by simp)
    case none =>
      rcases hr : runInSandboxM o config with e | res
      case error =>
        have h1 : executeCodeM hash o cache config =
            ({ inputSize := config.inputSize, runtime := o.elapsed, memoryUsage := 0,
               status := "error", error := some e }, cache, false) := by
          simp [executeCodeM, hl, hm, hr]
        constructor
        · rw [h1]
          right; right; rfl
        · intro hlang _
          rw [h1]
          refine ⟨rfl, rfl, ?_⟩
          intro _
          have hg := getLanguageConfig_unsupported config.language hlang
          unfold runInSandboxM at hr
          rw [hg] at hr
          have he : e = "Unsupported language: " ++ config.language := by
            have h2 := hr.symm
            injection h2
          rw [he]
      case ok =>
        have hst := runInSandbox_status o config res hr
        have hok : config.language ∉ (["python", "javascript", "java", "cpp"] : List String) →
            False := by
          intro hlang
          have hg := getLanguageConfig_unsupported config.language hlang
          unfold runInSandboxM at hr
          rw [hg] at hr
          simp at hr
        by_cases hs : res.status = "success"
        · have h1 : executeCodeM hash o cache config =
              ({ inputSize := config.inputSize, runtime := o.elapsed,
                 memoryUsage := res.memoryUsage, status := res.status, error := res.error },
               (cacheKey hash config,
                 ({ inputSize := config.inputSize, runtime := o.elapsed,
                    memoryUsage := res.memoryUsage, status := res.status,
                    error := res.error } : ExecutionResult)) :: cache, true) := by
            simp [executeCodeM, hl, hm, hr, hs]
          constructor
          · rw [h1]
            exact Or.inl hs
          · intro hlang _
            exact absurd (hok hlang) (by simp)
        · have h1 : executeCodeM hash o cache config =
              ({ inputSize := config.inputSize, runtime := o.elapsed,
                 memoryUsage := res.memoryUsage, status := res.status, error := res.error },
               cache, true) := by
            simp [executeCodeM, hl, hm, hr, hs]
          constructor
          · rw [h1]
            exact hst
          · intro hlang _
            exact absurd (hok hlang) (by simp)

/-- Closed instance of `c7_total_and_unsupported_fails_fast`: the
unsupported language `ruby` on an empty cache. -/
theorem c7_total_and_unsupported_fails_fast_witness :
    ((executeCodeM (fun _ => "h")
        { event := SpawnEvent.closed 0 "", memoryPeak := 10, elapsed := 1 } []
        { code := "x", language := "ruby", inputSize := 100, timeout := 10000 }).1.status = "success" ∨
     (executeCodeM (fun _ => "h")
        { event := SpawnEvent.closed 0 "", memoryPeak := 10, elapsed := 1 } []
        { code := "x", language := "ruby", inputSize := 100, timeout := 10000 }).1.status = "timeout" ∨
     (executeCodeM (fun _ => "h")
        { event := SpawnEvent.closed 0 "", memoryPeak := 10, elapsed := 1 } []
        { code := "x", language := "ruby", inputSize := 100, timeout := 10000 }).1.status = "error") ∧
    (("ruby" : String) ∉ (["python", "javascript", "java", "cpp"] : List String) →
      List.lookup (cacheKey (fun _ => "h")
        { code := "x", language := "ruby", inputSize := 100, timeout := 10000 }) ([] : ExecCache) = none →
      (executeCodeM (fun _ => "h")
        { event := SpawnEvent.closed 0 "", memoryPeak := 10, elapsed := 1 } []
        { code := "x", language := "ruby", inputSize := 100, timeout := 10000 }).1.status = "error" ∧
      (executeCodeM (fun _ => "h")
        { event := SpawnEvent.closed 0 "", memoryPeak := 10, elapsed := 1 } []
        { code := "x", language := "ruby", inputSize := 100, timeout := 10000 }).2.2 = false ∧
      (({ event := SpawnEvent.closed 0 "", memoryPeak := 10, elapsed := 1 } : ExecOracle).mkdtempFault = none →
        (executeCodeM (fun _ => "h")
          { event := SpawnEvent.closed 0 "", memoryPeak := 10, elapsed := 1 } []
          { code := "x", language := "ruby", inputSize := 100, timeout := 10000 }).1.error =
          some ("Unsupported language: " ++ "ruby"))) := by
  exact c7_total_and_unsupported_fails_fast (fun _ => "h")
    { event := SpawnEvent.closed 0 "", memoryPeak := 10, elapsed := 1 } []
    { code := "x", language := "ruby", inputSize := 100, timeout := 10000 }
    (by intro kv hkv; simp at hkv)

/-! ### C1 -/

/-- C1: provided the catch handler's own store update does not throw (the
claim's enumerated failure points are the steps of the try block), the run
routine never lets an exception escape, never leaves the record in status
`running`, and on any exception from the try block leaves any present record
in status `error` with exactly the single high-severity warning carrying the
exception's message or the `Analysis failed` fallback. -/
theorem c1_run_always_terminal (env : RunEnv) (hrec : env.recoverFault = none) :
    (analyzeComplexityM env).2 = none ∧
    (∀ r, (analyzeComplexityM env).1 = some r → r.status ≠ "running") ∧
    (∀ e, (runTry env).2 = some e → ∀ r, (analyzeComplexityM env).1 = some r →
      r.status = "error" ∧
      r.warnings = some [{ type := "error", message := excMessage e, severity := "high" }]) := by
  unfold analyzeComplexityM runTry
  rw [hrec]
  rcases hst : env.store with _ | a
  all_goals dsimp only
  · refine ⟨rfl, ?_, ?_⟩
    · intro r hr
      simp [updateAnalysisM] at hr
    · intro e he r hr
      simp [updateAnalysisM] at hr
  · rcases hu1 : env.updRunningFault with _ | e1
    all_goals dsimp only
    · rcases hb : env.batch (List.filter (fun size => decide (size ≤ a.maxInputSize)) INPUT_SIZES)
        with e2 | results
      all_goals dsimp only
      · refine ⟨rfl, ?_, ?_⟩
        · intro r hr
          simp [updateAnalysisM] at hr
          rw [← hr]
          simp [applyPatch]
        · intro e he r hr
          simp at he
          simp [updateAnalysisM] at hr
          rw [← hr, ← he]
          simp [applyPatch]
      · rcases hc : env.classifyFault with _ | e3
        all_goals dsimp only
        · rcases hu2 : env.updCompletedFault with _ | e4
          all_goals dsimp only
          · refine ⟨rfl, ?_, ?_⟩
            · intro r hr
              simp [updateAnalysisM] at hr
              rw [← hr]
              simp [applyPatch]
            · intro e he r hr
              simp at he
          · refine ⟨rfl, ?_, ?_⟩
            · intro r hr
              simp [updateAnalysisM] at hr
              rw [← hr]
              simp [applyPatch]
            · intro e he r hr
              simp at he
              simp [updateAnalysisM] at hr
              rw [← hr, ← he]
              simp [applyPatch]
        · refine ⟨rfl, ?_, ?_⟩
          · intro r hr
            simp [updateAnalysisM] at hr
            rw [← hr]
            simp [applyPatch]
          · intro e he r hr
            simp at he
            simp [updateAnalysisM] at hr
            rw [← hr, ← he]
            simp [applyPatch]
    · refine ⟨rfl, ?_, ?_⟩
      · intro r hr
        simp [updateAnalysisM] at hr
        rw [← hr]
        simp [applyPatch]
      · intro e he r hr
        simp at he
        simp [updateAnalysisM] at hr
        rw [← hr, ← he]
        simp [applyPatch]

/-- Closed instance of `c1_run_always_terminal`: a pending record whose
batch yields no results, no injected faults. -/
theorem c1_run_always_terminal_witness :
    (analyzeComplexityM
      { store := some { code := "zzz", language := "python", maxInputSize := 10000, status := "pending" }
        batch := fun _ => Except.ok [] }).2 = none ∧
    (∀ r, (analyzeComplexityM
      { store := some { code := "zzz", language := "python", maxInputSize := 10000, status := "pending" }
        batch := fun _ => Except.ok [] }).1 = some r → r.status ≠ "running") ∧
    (∀ e, (runTry
      { store := some { code := "zzz", language := "python", maxInputSize := 10000, status := "pending" }
        batch := fun _ => Except.ok [] }).2 = some e →
      ∀ r, (analyzeComplexityM
        { store := some { code := "zzz", language := "python", maxInputSize := 10000, status := "pending" }
          batch := fun _ => Except.ok [] }).1 = some r →
        r.status = "error" ∧
        r.warnings = some [{ type := "error", message := excMessage e, severity := "high" }]) :=
  c1_run_always_terminal
    { store := some { code := "zzz", language := "python", maxInputSize := 10000, status := "pending" }
      batch := fun _ => Except.ok [] } rfl
